import Mathlib

/-!
Verification development for the busybox mini DNS server (networking/dnsd.c).

The embedding below translates the core of dnsd.c into Lean:

* byte strings are lists of natural numbers (each element a byte value);
* `undot` is the in-place dot-to-length-prefix encoder;
* `mkEntry` builds one `dns_entry` the way `parse_conf_file` does
  (leading separator, `undot`, reversed decimal address string);
* `table_lookup` is the linear scan over the record list;
* `process_packet` decodes one datagram, validates it, looks the query up
  and rebuilds the buffer, returning `none` where the C code returns a
  negative length (drop) and `some out` (the bytes up to the returned
  length) otherwise.

The model fixes the platform the way the code is deployed on Android
(32-bit, little-endian): pointers and `struct dns_prop` are both 4 bytes
wide, so the question copy on the success path copies exactly the
name/type/class block, and the `htonl`/`htons` stores produce big-endian
fields on the wire.
-/

namespace Dnsd

/-- Read byte i of a buffer; out-of-range reads yield 0. -/
def getB (buf : List Nat) (i : Nat) : Nat := buf.getD i 0

/-- ASCII lower-casing of one byte, as C tolower does in the default locale. -/
def lowerB (c : Nat) : Nat := if 65 ≤ c ∧ c ≤ 90 then c + 32 else c

/-- Lower-case an entire byte string. -/
def lowerL (s : List Nat) : List Nat := s.map lowerB

/-- The bytes of a C string stored in a byte list: everything before
the first NUL byte. -/
def strTrunc (s : List Nat) : List Nat := s.takeWhile (fun c => c != 0)

/-- strncmp(r, q, strlen r) == 0 for NUL-free r: r is a byte-exact
leading segment of q. -/
def ripMatches : List Nat → List Nat → Bool
  | [], _ => true
  | _ :: _, [] => false
  | r :: rs, q :: qs => r == q && ripMatches rs qs

/-- Big-endian bytes of a 16-bit value. -/
def beBytes2 (n : Nat) : List Nat := [n / 256 % 256, n % 256]

/-- Big-endian bytes of a 32-bit value: exactly what the little-endian
htonl store writes to unaligned memory. -/
def beBytes4 (n : Nat) : List Nat :=
  [n / 16777216 % 256, n / 65536 % 256, n / 256 % 256, n % 256]

/-- Decimal ASCII digits of a number, as sprintf %u renders one octet. -/
def decBytes (n : Nat) : List Nat := (Nat.toDigits 10 n).map (fun c => c.toNat)

/-- Backward pass of undot over the reversed string: a running count s of
non-dot bytes replaces each dot byte (46). -/
def undotRevAux : List Nat → Nat → List Nat
  | [], _ => []
  | c :: rest, s =>
    if c == 46 then s :: undotRevAux rest 0 else c :: undotRevAux rest (s + 1)

/-- undot from dnsd.c: working from the end of the string backward,
replace each dot with the length of the segment that followed it. -/
def undot (rip : List Nat) : List Nat := (undotRevAux rip.reverse 0).reverse

/-- One record of the table (struct dns_entry): the 32-bit address as the
number whose big-endian bytes are the network-order memory bytes of
ip.s_addr, the label-encoded reversed decimal address string rip, and the
label-encoded host name. -/
structure dns_entry where
  ip : Nat
  rip : List Nat
  name : List Nat
deriving DecidableEq

/-- Build one table entry the way parse_conf_file does for a host name
(the config token's bytes) and the four address octets a.b.c.d: prefix a
dot and undot the name; store the address; render the octets in reverse
decimal, dot-prefixed, and undot that string too. -/
def mkEntry (dotted : List Nat) (o1 o2 o3 o4 : Nat) : dns_entry :=
  { ip := ((o1 % 256 * 256 + o2 % 256) * 256 + o3 % 256) * 256 + o4 % 256
  , rip := undot ([46] ++ decBytes (o4 % 256) ++ [46] ++ decBytes (o3 % 256)
      ++ [46] ++ decBytes (o2 % 256) ++ [46] ++ decBytes (o1 % 256))
  , name := undot (46 :: dotted) }

/-- One config line: the first token's bytes, and the parsed address
octets, or none when inet_aton rejects the second token. -/
abbrev ConfLine : Type := List Nat × Option (Nat × Nat × Nat × Nat)

/-- parse_conf_file: build entries in input order, skipping (only) the
lines whose address failed to parse. -/
def parse_conf_file : List ConfLine → List dns_entry
  | [] => []
  | (_, none) :: rest => parse_conf_file rest
  | (nm, some (o1, o2, o3, o4)) :: rest =>
      mkEntry nm o1 o2 o3 o4 :: parse_conf_file rest

/-- The wildcard test of table_lookup: the stored name's length byte is 1
and the following byte is the asterisk. -/
def isWild (name : List Nat) : Bool := getB name 0 == 1 && getB name 1 == 42

/-- A table entry matches a forward (address) query: it is the wildcard,
or strcasecmp of its stored name against the query string is 0. -/
def matchA (e : dns_entry) (qs : List Nat) : Bool :=
  isWild e.name || lowerL (strTrunc e.name) == lowerL qs

/-- A table entry matches a reverse (pointer) query: it is NOT the
wildcard, and its reversed-address string is a byte-exact leading segment
of the query string. -/
def matchPTR (e : dns_entry) (qs : List Nat) : Bool :=
  !isWild e.name && ripMatches (strTrunc e.rip) qs

/-- table_lookup from dnsd.c: scan the list in order; on a forward query
return the 4 network-order address bytes of the first matching entry, on
a reverse query return the stored name (the bytes strcpy places in the
answer buffer) of the first matching entry. -/
def table_lookup : List dns_entry → Bool → List Nat → Option (List Nat)
  | [], _, _ => none
  | d :: rest, tyA, qs =>
    if tyA then
      if matchA d qs then some (beBytes4 d.ip) else table_lookup rest tyA qs
    else
      if matchPTR d qs then some (strTrunc d.name) else table_lookup rest tyA qs

/-- The silent-drop test of process_packet: question count zero, or the
QR bit of the flags already marks a response. -/
def dropPacket (buf : List Nat) : Bool :=
  (getB buf 4 == 0 && getB buf 5 == 0) || (getB buf 2 &&& 128 != 0)

/-- The query string: the NUL-terminated C string starting right after
the 12-byte header. -/
def queryName (buf : List Nat) : List Nat := strTrunc (buf.drop 12)

/-- Offset of the type/class block: header, name bytes, NUL. -/
def qpropOff (buf : List Nat) : Nat := 12 + (queryName buf).length + 1

/-- The two query-type bytes as stored (network order). -/
def qtype (buf : List Nat) : List Nat :=
  [getB buf (qpropOff buf), getB buf (qpropOff buf + 1)]

/-- The two query-class bytes as stored (network order). -/
def qclass (buf : List Nat) : List Nat :=
  [getB buf (qpropOff buf + 2), getB buf (qpropOff buf + 3)]

/-- The validation of process_packet: type is address (1) or pointer (12),
class is Internet (1), and the opcode bits of the flags are all zero. -/
def validQuery (buf : List Nat) : Bool :=
  (qtype buf == [0, 1] || qtype buf == [0, 12])
    && qclass buf == [0, 1]
    && (getB buf 2 &&& 120 == 0)

/-- The question block as transmitted: name bytes, NUL, type, class. -/
def questionBlock (buf : List Nat) : List Nat :=
  (List.range ((queryName buf).length + 1 + 4)).map (fun i => getB buf (12 + i))

/-- The 12 header bytes of the outgoing packet: id unchanged, each flags
byte OR-ed with the response flags byte, question count forced to 1,
answer count as given, authority and additional counts forced to 0. -/
def replyHeader (buf : List Nat) (fhi flo : Nat) (answ : List Nat) : List Nat :=
  [getB buf 0, getB buf 1, getB buf 2 ||| fhi, getB buf 3 ||| flo, 0, 1]
    ++ answ ++ [0, 0, 0, 0]

/-- process_packet from dnsd.c over one received buffer: none for the two
silent-drop cases, otherwise the bytes of the rebuilt buffer up to the
returned length. Rejected queries get flags OR 0x8004 and the echoed
answer count; a lookup miss gets flags OR 0x8403 and the echoed answer
count; a hit gets flags OR 0x8400, answer count 1, and an appended
resource record: a copy of the question block, the TTL (4 bytes
big-endian), the resource length (16-bit truncated, 2 bytes big-endian),
and that many resource-data bytes (the 4 address bytes, or the stored
name with its terminating NUL). -/
def process_packet (conf_data : List dns_entry) (conf_ttl : Nat)
    (buf : List Nat) : Option (List Nat) :=
  if dropPacket buf then none
  else if !validQuery buf then
    some (replyHeader buf 128 4 [getB buf 6, getB buf 7] ++ questionBlock buf)
  else
    match table_lookup conf_data (qtype buf == [0, 1]) (queryName buf) with
    | none =>
        some (replyHeader buf 132 3 [getB buf 6, getB buf 7] ++ questionBlock buf)
    | some ans =>
        let rdata := if qtype buf == [0, 1] then ans else ans ++ [0]
        let rlen := rdata.length % 65536
        some (replyHeader buf 132 0 [0, 1] ++ questionBlock buf ++ questionBlock buf
          ++ beBytes4 (conf_ttl % 4294967296) ++ beBytes2 rlen ++ rdata.take rlen)

/-- Which match test table_lookup applies for a given query type. -/
def entryMatches (tyA : Bool) (e : dns_entry) (qs : List Nat) : Bool :=
  if tyA then matchA e qs else matchPTR e qs

/-- Which data table_lookup returns for a matching entry. -/
def entryData (tyA : Bool) (e : dns_entry) : List Nat :=
  if tyA then beBytes4 e.ip else strTrunc e.name

/-- Sample table: one record mapping the name foo to 10.0.0.1. -/
def sampleTbl : List dns_entry := [mkEntry [102, 111, 111] 10 0 0 1]

/-- Sample forward query packet: id 1, recursion-desired flag, one
question for the name foo, type address (1), class Internet (1). -/
def sampleBufA : List Nat :=
  [0, 1, 1, 0, 0, 1, 0, 0, 0, 0, 0, 0, 3, 102, 111, 111, 0, 0, 1, 0, 1]

/-- Sample reverse query packet: one question for 1.0.0.10.in-addr.arpa,
type pointer (12), class Internet. -/
def sampleBufPTR : List Nat :=
  [0, 1, 0, 0, 0, 1, 0, 0, 0, 0, 0, 0,
   1, 49, 1, 48, 1, 48, 2, 49, 48, 7, 105, 110, 45, 97, 100, 100, 114,
   4, 97, 114, 112, 97, 0, 0, 12, 0, 1]

/-- Sample mail-exchange query packet: type 15 is not supported. -/
def sampleBufMX : List Nat :=
  [0, 1, 0, 0, 0, 1, 0, 0, 0, 0, 0, 0, 3, 102, 111, 111, 0, 0, 15, 0, 1]

/-- The reply the model produces for sampleBufA over sampleTbl with
TTL 120, byte for byte. -/
def sampleOutA : List Nat :=
  [0, 1, 133, 0, 0, 1, 0, 1, 0, 0, 0, 0,
   3, 102, 111, 111, 0, 0, 1, 0, 1,
   3, 102, 111, 111, 0, 0, 1, 0, 1,
   0, 0, 0, 120, 0, 4, 10, 0, 0, 1]

theorem table_lookup_cons (d : dns_entry) (rest : List dns_entry) (tyA : Bool)
    (qs : List Nat) :
    table_lookup (d :: rest) tyA qs =
      if entryMatches tyA d qs then some (entryData tyA d)
      else table_lookup rest tyA qs := by
  cases tyA <;> simp [table_lookup, entryMatches, entryData]

theorem table_lookup_eq_find (t : List dns_entry) (tyA : Bool) (qs : List Nat) :
    table_lookup t tyA qs =
      (List.find? (fun d => entryMatches tyA d qs) t).map (entryData tyA) := by
  induction t with
  | nil => cases tyA <;> rfl
  | cons d rest ih =>
      rw [table_lookup_cons]
      by_cases h : entryMatches tyA d qs = true
      · simp [List.find?_cons, h]
      · simp only [Bool.not_eq_true] at h
        simp [List.find?_cons, h, ih]

theorem table_lookup_append_nomatch (l1 l2 : List dns_entry) (tyA : Bool)
    (qs : List Nat) (h : ∀ d ∈ l1, entryMatches tyA d qs = false) :
    table_lookup (l1 ++ l2) tyA qs = table_lookup l2 tyA qs := by
  induction l1 with
  | nil => rfl
  | cons d rest ih =>
      rw [List.cons_append, table_lookup_cons,
        if_neg (by simp [h d (List.mem_cons_self d rest)]),
        ih (fun x hx => h x (List.mem_cons_of_mem d hx))]

theorem parse_conf_file_append (l1 l2 : List ConfLine) :
    parse_conf_file (l1 ++ l2) = parse_conf_file l1 ++ parse_conf_file l2 := by
  induction l1 with
  | nil => rfl
  | cons c rest ih =>
      obtain ⟨nm, ip⟩ := c
      cases ip with
      | none => simpa [parse_conf_file] using ih
      | some q =>
          obtain ⟨o1, o2, o3, o4⟩ := q
          simpa [parse_conf_file] using ih

theorem process_packet_invalid (t : List dns_entry) (ttl : Nat) (buf : List Nat)
    (h1 : dropPacket buf = false) (h2 : validQuery buf = false) :
    process_packet t ttl buf =
      some (replyHeader buf 128 4 [getB buf 6, getB buf 7] ++ questionBlock buf) := by
  simp [process_packet, h1, h2]

theorem process_packet_miss (t : List dns_entry) (ttl : Nat) (buf : List Nat)
    (h1 : dropPacket buf = false) (h2 : validQuery buf = true)
    (h3 : table_lookup t (qtype buf == [0, 1]) (queryName buf) = none) :
    process_packet t ttl buf =
      some (replyHeader buf 132 3 [getB buf 6, getB buf 7] ++ questionBlock buf) := by
  simp [process_packet, h1, h2, h3]

theorem process_packet_hit (t : List dns_entry) (ttl : Nat) (buf ans : List Nat)
    (h1 : dropPacket buf = false) (h2 : validQuery buf = true)
    (h3 : table_lookup t (qtype buf == [0, 1]) (queryName buf) = some ans) :
    process_packet t ttl buf =
      some (replyHeader buf 132 0 [0, 1] ++ questionBlock buf ++ questionBlock buf
        ++ beBytes4 (ttl % 4294967296)
        ++ beBytes2 ((if qtype buf == [0, 1] then ans else ans ++ [0]).length % 65536)
        ++ (if qtype buf == [0, 1] then ans else ans ++ [0]).take
            ((if qtype buf == [0, 1] then ans else ans ++ [0]).length % 65536)) := by
  simp [process_packet, h1, h2, h3]

theorem strTrunc_eq_self (l : List Nat) (h : ∀ c ∈ l, c ≠ 0) : strTrunc l = l := by
  induction l with
  | nil => rfl
  | cons c cs ih =>
      have hc : (c != 0) = true := by
        simpa using h c (List.mem_cons_self c cs)
      simp only [strTrunc, List.takeWhile_cons, hc, if_true]
      exact congrArg (c :: ·) (ih (fun x hx => h x (List.mem_cons_of_mem c hx)))

theorem lowerB_idem (c : Nat) : lowerB (lowerB c) = lowerB c := by
  unfold lowerB
  split
  · rename_i h
    rw [if_neg (by omega)]
  · rfl

theorem lowerL_idem (l : List Nat) : lowerL (lowerL l) = lowerL l := by
  simp [lowerL, Function.comp, lowerB_idem]

theorem land_lor_self (a b : Nat) : a &&& (a ||| b) = a := by
  apply Nat.eq_of_testBit_eq
  intro i
  rw [Nat.testBit_land, Nat.testBit_lor]
  cases a.testBit i <;> simp

theorem entryMatches_true (d : dns_entry) (qs : List Nat) :
    entryMatches true d qs = matchA d qs := rfl

theorem entryMatches_false (d : dns_entry) (qs : List Nat) :
    entryMatches false d qs = matchPTR d qs := rfl

/-- C6: the packet processor silently drops a buffer (returns the
drop signal and produces no reply bytes) exactly when the question-count
field of the header is zero or the QR bit already marks the buffer as a
response; these are the only drop cases. -/
theorem c6_drop_cases (t : List dns_entry) (ttl : Nat) (buf : List Nat) :
    process_packet t ttl buf = none ↔
      ((getB buf 4 = 0 ∧ getB buf 5 = 0) ∨ getB buf 2 &&& 128 ≠ 0) := by
  have hiff : process_packet t ttl buf = none ↔ dropPacket buf = true := by
    constructor
    · intro hn
      cases h : dropPacket buf
      · exfalso
        cases hv : validQuery buf
        · rw [process_packet_invalid t ttl buf h hv] at hn
          exact Option.noConfusion hn
        · cases hl : table_lookup t (qtype buf == [0, 1]) (queryName buf) with
          | none =>
              rw [process_packet_miss t ttl buf h hv hl] at hn
              exact Option.noConfusion hn
          | some ans =>
              rw [process_packet_hit t ttl buf ans h hv hl] at hn
              exact Option.noConfusion hn
      · rfl
    · intro h
      simp [process_packet, h]
  rw [hiff]
  simp [dropPacket]

/-- C8: every non-dropped packet leaves with question count forced to 1
and authority and additional counts forced to 0 in the outgoing header,
whatever the received counts were. -/
theorem c8_forced_counts (t : List dns_entry) (ttl : Nat) (buf out : List Nat)
    (h : process_packet t ttl buf = some out) :
    getB out 4 = 0 ∧ getB out 5 = 1 ∧ getB out 8 = 0 ∧ getB out 9 = 0
      ∧ getB out 10 = 0 ∧ getB out 11 = 0 := by
  cases hd : dropPacket buf
  · cases hv : validQuery buf
    · rw [process_packet_invalid t ttl buf hd hv] at h
      injection h with h
      subst h
      exact ⟨rfl, rfl, rfl, rfl, rfl, rfl⟩
    · cases hl : table_lookup t (qtype buf == [0, 1]) (queryName buf) with
      | none =>
          rw [process_packet_miss t ttl buf hd hv hl] at h
          injection h with h
          subst h
          exact ⟨rfl, rfl, rfl, rfl, rfl, rfl⟩
      | some ans =>
          rw [process_packet_hit t ttl buf ans hd hv hl] at h
          injection h with h
          subst h
          exact ⟨rfl, rfl, rfl, rfl, rfl, rfl⟩
  · rw [show process_packet t ttl buf = none by simp [process_packet, hd]] at h
    exact Option.noConfusion h

/-- C8 witness: the forced counts on a concrete answered packet. -/
theorem c8_witness :
    getB sampleOutA 4 = 0 ∧ getB sampleOutA 5 = 1 ∧ getB sampleOutA 8 = 0
      ∧ getB sampleOutA 9 = 0 ∧ getB sampleOutA 10 = 0 ∧ getB sampleOutA 11 = 0 :=
  c8_forced_counts sampleTbl 120 sampleBufA sampleOutA (by decide)

/-- C10: on every non-dropped packet the reply keeps the 16-bit
transaction id unchanged and each flags byte is the incoming byte OR-ed
with the computed response flags (0x8004, 0x8403 or 0x8400), so no flag
bit that was set in the request is ever cleared in the reply. -/
theorem c10_flags_or (t : List dns_entry) (ttl : Nat) (buf out : List Nat)
    (h : process_packet t ttl buf = some out) :
    getB out 0 = getB buf 0 ∧ getB out 1 = getB buf 1
      ∧ ((getB out 2, getB out 3) = (getB buf 2 ||| 128, getB buf 3 ||| 4)
        ∨ (getB out 2, getB out 3) = (getB buf 2 ||| 132, getB buf 3 ||| 3)
        ∨ (getB out 2, getB out 3) = (getB buf 2 ||| 132, getB buf 3 ||| 0))
      ∧ getB buf 2 &&& getB out 2 = getB buf 2
      ∧ getB buf 3 &&& getB out 3 = getB buf 3 := by
  cases hd : dropPacket buf
  · cases hv : validQuery buf
    · rw [process_packet_invalid t ttl buf hd hv] at h
      injection h with h
      subst h
      exact ⟨rfl, rfl, Or.inl rfl,
        land_lor_self (getB buf 2) 128, land_lor_self (getB buf 3) 4⟩
    · cases hl : table_lookup t (qtype buf == [0, 1]) (queryName buf) with
      | none =>
          rw [process_packet_miss t ttl buf hd hv hl] at h
          injection h with h
          subst h
          exact ⟨rfl, rfl, Or.inr (Or.inl rfl),
            land_lor_self (getB buf 2) 132, land_lor_self (getB buf 3) 3⟩
      | some ans =>
          rw [process_packet_hit t ttl buf ans hd hv hl] at h
          injection h with h
          subst h
          exact ⟨rfl, rfl, Or.inr (Or.inr rfl),
            land_lor_self (getB buf 2) 132, land_lor_self (getB buf 3) 0⟩
  · rw [show process_packet t ttl buf = none by simp [process_packet, hd]] at h
    exact Option.noConfusion h

/-- C10 witness: id preservation and flag OR-ing on a concrete answered
packet whose request had the recursion-desired bit set. -/
theorem c10_witness :
    getB sampleOutA 0 = getB sampleBufA 0 ∧ getB sampleOutA 1 = getB sampleBufA 1
      ∧ ((getB sampleOutA 2, getB sampleOutA 3)
            = (getB sampleBufA 2 ||| 128, getB sampleBufA 3 ||| 4)
        ∨ (getB sampleOutA 2, getB sampleOutA 3)
            = (getB sampleBufA 2 ||| 132, getB sampleBufA 3 ||| 3)
        ∨ (getB sampleOutA 2, getB sampleOutA 3)
            = (getB sampleBufA 2 ||| 132, getB sampleBufA 3 ||| 0))
      ∧ getB sampleBufA 2 &&& getB sampleOutA 2 = getB sampleBufA 2
      ∧ getB sampleBufA 3 &&& getB sampleOutA 3 = getB sampleBufA 3 :=
  c10_flags_or sampleTbl 120 sampleBufA sampleOutA (by decide)

/-- C5 counterexample: a non-dropped query of unsupported type (15, mail
exchange) whose request flags already carry RCODE bits 1 gets a reply
whose RCODE field is 5, not 4, because the response flags are OR-ed onto
the request flags instead of replacing them. -/
theorem c5_counterexample :
    (process_packet [] 120
        [0, 1, 0, 1, 0, 1, 0, 0, 0, 0, 0, 0, 1, 97, 0, 0, 15, 0, 1]).map
      (fun o => getB o 3 &&& 15) = some 5 := by decide

/-- C5 (amended): for every non-dropped query rejected by validation
(unsupported type, class, or nonzero opcode), no table lookup is
performed (the reply does not depend on the table at all) and the reply
is exactly the patched header followed by the question bytes, with each
flags byte OR-ed with 0x80/0x04 - so QR=1, and RCODE=4 whenever the
request RCODE field was 0 - and the received answer count echoed. -/
theorem c5_not_implemented (t t2 : List dns_entry) (ttl : Nat) (buf : List Nat)
    (h1 : dropPacket buf = false) (h2 : validQuery buf = false) :
    process_packet t ttl buf =
      some (replyHeader buf 128 4 [getB buf 6, getB buf 7] ++ questionBlock buf)
    ∧ process_packet t ttl buf = process_packet t2 ttl buf := by
  rw [process_packet_invalid t ttl buf h1 h2, process_packet_invalid t2 ttl buf h1 h2]
  exact ⟨rfl, rfl⟩

/-- C5 witness: the sample mail-exchange query is answered with the
not-implemented reply and the reply ignores the table. -/
theorem c5_witness :
    process_packet sampleTbl 120 sampleBufMX =
      some (replyHeader sampleBufMX 128 4 [getB sampleBufMX 6, getB sampleBufMX 7]
        ++ questionBlock sampleBufMX)
    ∧ process_packet sampleTbl 120 sampleBufMX = process_packet [] 120 sampleBufMX :=
  c5_not_implemented sampleTbl [] 120 sampleBufMX (by decide) (by decide)

/-- C4 counterexample: a validated query with no table match whose
request header carried answer count 5 gets a reply whose answer-count
field is still 5, not 0: the miss path never writes the answer count. -/
theorem c4_counterexample :
    (process_packet [] 120
        [0, 1, 0, 0, 0, 1, 0, 5, 0, 0, 0, 0, 1, 97, 0, 0, 1, 0, 1]).map
      (fun o => (getB o 6, getB o 7)) = some (0, 5) := by decide

/-- C4 (amended): for every query that passes validation but matches no
table entry, the reply is exactly the patched header followed by the
question bytes - no answer record is appended - with each flags byte
OR-ed with 0x84/0x03, so QR=1, AA=1, and RCODE=3 whenever the request
RCODE field was 0; the answer-count field is echoed from the request
(hence 0 for a standard query), and authority/additional counts are 0. -/
theorem c4_name_error (t : List dns_entry) (ttl : Nat) (buf : List Nat)
    (h1 : dropPacket buf = false) (h2 : validQuery buf = true)
    (h3 : table_lookup t (qtype buf == [0, 1]) (queryName buf) = none) :
    process_packet t ttl buf =
      some (replyHeader buf 132 3 [getB buf 6, getB buf 7] ++ questionBlock buf) :=
  process_packet_miss t ttl buf h1 h2 h3

/-- C4 witness: the sample forward query against an empty table yields
the name-error reply. -/
theorem c4_witness :
    process_packet [] 120 sampleBufA =
      some (replyHeader sampleBufA 132 3 [getB sampleBufA 6, getB sampleBufA 7]
        ++ questionBlock sampleBufA) :=
  c4_name_error [] 120 sampleBufA (by decide) (by decide) (by decide)

/-- C2 counterexample: an answered query whose request flags already
carried RCODE bits 1 produces a reply with answer count 1 but RCODE 1,
not 0, because the success flags 0x8400 are OR-ed onto the request
flags. -/
theorem c2_counterexample :
    (process_packet [mkEntry [97] 10 0 0 1] 120
        [0, 1, 0, 1, 0, 1, 0, 0, 0, 0, 0, 0, 1, 97, 0, 0, 1, 0, 1]).map
      (fun o => (getB o 7, getB o 3 &&& 15)) = some (1, 1) := by decide

/-- C2 (amended): for every query that passes validation and whose
lookup succeeds, the reply has QR=1, AA=1, answer count 1, and RCODE
equal to the request RCODE field (0 for a standard query), the flags
bytes being the request bytes OR-ed with 0x84/0x00; the reply consists
of the header, the original question bytes unchanged, then one resource
record formed by a verbatim copy of the question name/type/class block
followed by the configured TTL as a 4-byte big-endian integer, the
2-byte big-endian resource-data length, and the resource data; the
returned length is the total of header, question and answer. -/
theorem c2_success_shape (t : List dns_entry) (ttl : Nat) (buf ans : List Nat)
    (h1 : dropPacket buf = false) (h2 : validQuery buf = true)
    (h3 : table_lookup t (qtype buf == [0, 1]) (queryName buf) = some ans)
    (h4 : (if qtype buf == [0, 1] then ans else ans ++ [0]).length < 65536) :
    process_packet t ttl buf =
      some (replyHeader buf 132 0 [0, 1] ++ questionBlock buf ++ questionBlock buf
        ++ beBytes4 (ttl % 4294967296)
        ++ beBytes2 (if qtype buf == [0, 1] then ans else ans ++ [0]).length
        ++ (if qtype buf == [0, 1] then ans else ans ++ [0])) := by
  rw [process_packet_hit t ttl buf ans h1 h2 h3, Nat.mod_eq_of_lt h4,
    List.take_length]

/-- C2 witness: the sample reverse query answered from the sample table,
with the stored name and its terminating NUL byte as resource data. -/
theorem c2_witness :
    process_packet sampleTbl 120 sampleBufPTR =
      some (replyHeader sampleBufPTR 132 0 [0, 1] ++ questionBlock sampleBufPTR
        ++ questionBlock sampleBufPTR ++ beBytes4 (120 % 4294967296)
        ++ beBytes2 (if qtype sampleBufPTR == [0, 1] then [3, 102, 111, 111]
            else [3, 102, 111, 111] ++ [0]).length
        ++ (if qtype sampleBufPTR == [0, 1] then [3, 102, 111, 111]
            else [3, 102, 111, 111] ++ [0])) :=
  c2_success_shape sampleTbl 120 sampleBufPTR [3, 102, 111, 111]
    (by decide) (by decide) (by decide) (by decide)

/-- C1 counterexample: a valid reverse query whose encoded name begins
with a table entry's encoded reversed-address string as a byte-exact
prefix, but where that entry is the wildcard: the claim promises an
answer carrying the entry's encoded name, yet the code skips wildcard
entries on reverse lookups and replies with name error and no answer. -/
theorem c1_counterexample :
    dropPacket sampleBufPTR = false
    ∧ validQuery sampleBufPTR = true
    ∧ qtype sampleBufPTR = [0, 12]
    ∧ ripMatches (strTrunc (mkEntry [42] 10 0 0 1).rip) (queryName sampleBufPTR) = true
    ∧ process_packet [mkEntry [42] 10 0 0 1] 120 sampleBufPTR
        = some (replyHeader sampleBufPTR 132 3 [0, 0] ++ questionBlock sampleBufPTR) := by
  decide

/-- C1 (amended): over any valid query, (a) if some table entry's stored
name case-insensitively equals the query name then the forward scan finds
a first matching entry; (b) when the first matching entry of a forward
query is e, the reply carries exactly e's 4 network-order address bytes
as resource data with resource length 4; (c) if some non-wildcard
entry's reversed-address string is a byte-exact leading segment of the
query name then the reverse scan finds a first matching entry; (d) when
the first matching entry of a reverse query is e, the reply carries e's
stored label-encoded name plus its terminating NUL byte as resource
data. Wildcard entries never match reverse queries. -/
theorem c1_lookup_data (t : List dns_entry) (ttl : Nat) (buf : List Nat)
    (e : dns_entry) (hdrop : dropPacket buf = false)
    (hval : validQuery buf = true) :
    ((∃ d ∈ t, lowerL (strTrunc d.name) = lowerL (queryName buf)) →
      (List.find? (fun d => matchA d (queryName buf)) t).isSome = true)
    ∧ (qtype buf = [0, 1] →
      List.find? (fun d => matchA d (queryName buf)) t = some e →
      process_packet t ttl buf =
        some (replyHeader buf 132 0 [0, 1] ++ questionBlock buf ++ questionBlock buf
          ++ beBytes4 (ttl % 4294967296) ++ [0, 4] ++ beBytes4 e.ip))
    ∧ ((∃ d ∈ t, isWild d.name = false
          ∧ ripMatches (strTrunc d.rip) (queryName buf) = true) →
      (List.find? (fun d => matchPTR d (queryName buf)) t).isSome = true)
    ∧ (qtype buf = [0, 12] →
      List.find? (fun d => matchPTR d (queryName buf)) t = some e →
      (strTrunc e.name).length + 1 < 65536 →
      process_packet t ttl buf =
        some (replyHeader buf 132 0 [0, 1] ++ questionBlock buf ++ questionBlock buf
          ++ beBytes4 (ttl % 4294967296) ++ beBytes2 ((strTrunc e.name).length + 1)
          ++ (strTrunc e.name ++ [0]))) := by
  refine ⟨?_, ?_, ?_, ?_⟩
  · rintro ⟨d, hd, heq⟩
    rw [List.find?_isSome]
    exact ⟨d, hd, by simp [matchA, heq]⟩
  · intro hty hfind
    have htyb : (qtype buf == [0, 1]) = true := by rw [hty]; rfl
    have hlk : table_lookup t (qtype buf == [0, 1]) (queryName buf)
        = some (beBytes4 e.ip) := by
      rw [htyb, table_lookup_eq_find]
      simp only [entryMatches_true]
      rw [hfind]
      rfl
    rw [process_packet_hit t ttl buf (beBytes4 e.ip) hdrop hval hlk, htyb]
    simp [beBytes4, beBytes2]
  · rintro ⟨d, hd, hnw, hpre⟩
    rw [List.find?_isSome]
    exact ⟨d, hd, by simp [matchPTR, hnw, hpre]⟩
  · intro hty hfind hlen
    have htyb : (qtype buf == [0, 1]) = false := by rw [hty]; rfl
    have hlk : table_lookup t (qtype buf == [0, 1]) (queryName buf)
        = some (strTrunc e.name) := by
      rw [htyb, table_lookup_eq_find]
      simp only [entryMatches_false]
      rw [hfind]
      rfl
    rw [process_packet_hit t ttl buf (strTrunc e.name) hdrop hval hlk, htyb]
    have hL : (strTrunc e.name ++ [0]).length = (strTrunc e.name).length + 1 := by
      simp
    simp only [Bool.false_eq_true, if_false]
    rw [hL, Nat.mod_eq_of_lt hlen, List.take_of_length_le (by simp)]

/-- C1 witness: the sample forward query answered from the sample table
with the stored address bytes and resource length 4. -/
theorem c1_witness :
    process_packet sampleTbl 120 sampleBufA =
      some (replyHeader sampleBufA 132 0 [0, 1] ++ questionBlock sampleBufA
        ++ questionBlock sampleBufA ++ beBytes4 (120 % 4294967296) ++ [0, 4]
        ++ beBytes4 (mkEntry [102, 111, 111] 10 0 0 1).ip) :=
  (c1_lookup_data sampleTbl 120 sampleBufA (mkEntry [102, 111, 111] 10 0 0 1)
    (by decide) (by decide)).2.1 (by decide) (by decide)

/-- C3 counterexample: a wildcard entry never matches a reverse query,
although the claim says the analogous wildcard check applies and the
reply carries the entry's encoded name: even on a reverse query name
that begins with the wildcard entry's own reversed-address string, the
lookup fails. -/
theorem c3_counterexample :
    isWild (mkEntry [42] 10 0 0 1).name = true
    ∧ ripMatches (strTrunc (mkEntry [42] 10 0 0 1).rip) (queryName sampleBufPTR) = true
    ∧ table_lookup [mkEntry [42] 10 0 0 1] false (queryName sampleBufPTR) = none := by
  decide

/-- C3 (amended): a wildcard entry matches every forward query that
reaches lookup, regardless of the requested name, and the reply carries
that entry's address; in reverse lookup, however, wildcard entries are
skipped entirely, so a leading wildcard entry never contributes to a
reverse answer and the scan continues with the remaining entries. -/
theorem c3_wildcard (e : dns_entry) (rest : List dns_entry) (qs : List Nat)
    (hw : isWild e.name = true) :
    table_lookup (e :: rest) true qs = some (beBytes4 e.ip)
    ∧ table_lookup (e :: rest) false qs = table_lookup rest false qs := by
  constructor
  · simp [table_lookup, matchA, hw]
  · simp [table_lookup, matchPTR, hw]

/-- C3 witness: a concrete wildcard entry answers an arbitrary forward
name and is skipped on a reverse name. -/
theorem c3_witness :
    table_lookup [mkEntry [42] 1 2 3 4] true [5, 5]
      = some (beBytes4 (mkEntry [42] 1 2 3 4).ip)
    ∧ table_lookup [mkEntry [42] 1 2 3 4] false [5, 5]
      = table_lookup [] false [5, 5] :=
  c3_wildcard (mkEntry [42] 1 2 3 4) [] [5, 5] (by decide)

/-- C7: the table built from config lines preserves input order and
keeps duplicates, and lookup stops at the first match: whenever two
parsed entries both match the query key and nothing before the first of
them matches, lookup returns the earlier-inserted entry's data. -/
theorem c7_first_match_wins (pre mid post : List ConfLine) (nm1 nm2 : List Nat)
    (a1 a2 a3 a4 b1 b2 b3 b4 : Nat) (tyA : Bool) (qs : List Nat)
    (hpre : ∀ d ∈ parse_conf_file pre, entryMatches tyA d qs = false)
    (h1 : entryMatches tyA (mkEntry nm1 a1 a2 a3 a4) qs = true)
    (h2 : entryMatches tyA (mkEntry nm2 b1 b2 b3 b4) qs = true) :
    table_lookup
      (parse_conf_file (pre ++ (((nm1, some (a1, a2, a3, a4)) : ConfLine)
        :: (mid ++ (((nm2, some (b1, b2, b3, b4)) : ConfLine) :: post))))) tyA qs
      = some (entryData tyA (mkEntry nm1 a1 a2 a3 a4)) := by
  rw [parse_conf_file_append, table_lookup_append_nomatch _ _ _ _ hpre]
  simp only [parse_conf_file]
  rw [table_lookup_cons, if_pos h1]

/-- C7 witness: two entries with the same name; the earlier one wins. -/
theorem c7_witness :
    table_lookup
      (parse_conf_file ([] ++ ((([97], some (1, 1, 1, 1)) : ConfLine)
        :: ([] ++ ((([97], some (2, 2, 2, 2)) : ConfLine) :: []))))) true [1, 97]
      = some (entryData true (mkEntry [97] 1 1 1 1)) :=
  c7_first_match_wins [] [] [] [97] [97] 1 1 1 1 2 2 2 2 true [1, 97]
    (by decide) (by decide) (by decide)

/-- C9: round-trip through the name codec: a table entry stores the
dotted name with a synthetic leading dot, encoded by undot; a forward
query carrying exactly that wire encoding (or any case variant of it,
here its lower-cased form) matches the entry under the case-insensitive
comparison and the lookup returns the entry's address bytes. -/
theorem c9_roundtrip (dotted : List Nat) (o1 o2 o3 o4 : Nat)
    (rest : List dns_entry) (hz : ∀ c ∈ undot (46 :: dotted), c ≠ 0) :
    table_lookup (mkEntry dotted o1 o2 o3 o4 :: rest) true (undot (46 :: dotted))
      = some (beBytes4 (mkEntry dotted o1 o2 o3 o4).ip)
    ∧ table_lookup (mkEntry dotted o1 o2 o3 o4 :: rest) true
        (lowerL (undot (46 :: dotted)))
      = some (beBytes4 (mkEntry dotted o1 o2 o3 o4).ip) := by
  have hst : strTrunc (mkEntry dotted o1 o2 o3 o4).name = undot (46 :: dotted) :=
    strTrunc_eq_self _ hz
  have hm1 : entryMatches true (mkEntry dotted o1 o2 o3 o4)
      (undot (46 :: dotted)) = true := by
    simp [entryMatches, matchA, hst]
  have hm2 : entryMatches true (mkEntry dotted o1 o2 o3 o4)
      (lowerL (undot (46 :: dotted))) = true := by
    simp [entryMatches, matchA, hst, lowerL_idem]
  exact ⟨by rw [table_lookup_cons, if_pos hm1]; rfl,
    by rw [table_lookup_cons, if_pos hm2]; rfl⟩

/-- C9 witness: the round trip on the concrete name foo. -/
theorem c9_witness :
    table_lookup (mkEntry [102, 111, 111] 10 0 0 1 :: []) true
        (undot (46 :: [102, 111, 111]))
      = some (beBytes4 (mkEntry [102, 111, 111] 10 0 0 1).ip)
    ∧ table_lookup (mkEntry [102, 111, 111] 10 0 0 1 :: []) true
        (lowerL (undot (46 :: [102, 111, 111])))
      = some (beBytes4 (mkEntry [102, 111, 111] 10 0 0 1).ip) :=
  c9_roundtrip [102, 111, 111] 10 0 0 1 [] (by decide)

end Dnsd
